import Mathlib

/-!
Verification development for the ggpo-rs rollback-networking scaffold.

The repository has two source files:

* `src/ggpo.rs` — the `GGPOError` taxonomy, the `Event` stream, the
  `Session` trait whose methods all have default bodies, and the
  `NetworkStats` family of structs.
* `src/network/udp.rs` — the `Udp` transport: `create_socket` (bind with
  port retries), `Udp::init`, `Udp::send_to`, `Udp::on_loop_poll`, and the
  `UdpError` taxonomy.

Machine integers are embedded as `Nat`/`Int` with explicit `% 2 ^ w` where
Rust performs a narrowing cast (the `port as u16` cast in `create_socket`).
Rust `Result` becomes `Except`; fields of type `Option<T>` become
`Option`.  External effects (socket bind, send, receive, peer-address
query) are passed in as explicit outcome parameters, and callback
invocations are returned as an explicit list, so every function is a pure,
executable Lean definition.

Types that the sources import from modules not present in the repository
(`crate::player`, `crate::game_input`, `crate::network::udp_msg`) are
modelled from the specification; each such definition carries a doc
comment starting with "Modelled from the spec:".
-/

namespace GgpoRs

/-- Error taxonomy of `src/ggpo.rs` (`GGPOError`). -/
inductive GGPOError where
  | Ok
  | Success
  | GeneralFailure
  | InvalidSession
  | InvalidPlayerHandle
  | PlayerOutOfRange
  | PredictionThreshold
  | Unsupported
  | NotSynchronized
  | InRollback
  | InputDropped
  | PlayerDisconnected
  | TooManySpectators
  | InvalidRequest
deriving DecidableEq

/-- Modelled from the spec: `PlayerHandle` lives in the absent module
`crate::player`; the spec calls it an opaque identifier, stable for the
session lifetime, mapping to exactly one player.  We embed it as `Nat`. -/
abbrev PlayerHandle : Type := Nat

/-- An IPv4 address, standing in for `std::net::IpAddr` as used by the
sources (only the `V4` form appears, via `Ipv4Addr::new`). -/
inductive IpAddr where
  | v4 (a b c d : Nat)
deriving DecidableEq

/-- A socket address, standing in for `std::net::SocketAddr`: an IP
address plus a 16-bit port. -/
structure SocketAddr where
  ip : IpAddr
  port : Nat
deriving DecidableEq

/-- Modelled from the spec: `Player` lives in the absent module
`crate::player`; the spec says it is a variant over
Local, Remote(address), Spectator(address). -/
inductive Player where
  | Local
  | Remote (addr : SocketAddr)
  | Spectator (addr : SocketAddr)
deriving DecidableEq

/-- The `Network` struct of `src/ggpo.rs`. -/
structure Network where
  send_queue_len : Nat
  recv_queue_len : Nat
  ping : Nat
  kbps_sent : Nat
deriving DecidableEq

/-- The `TimeSync` struct of `src/ggpo.rs`. -/
structure TimeSync where
  local_frames_behind : Int
  remote_frames_behind : Int
deriving DecidableEq

/-- The `NetworkStats` struct of `src/ggpo.rs`. -/
structure NetworkStats where
  network : Network
  timesync : TimeSync
deriving DecidableEq

/-- Default body of `Session::do_poll` in `src/ggpo.rs`: returns `Ok(())`
unconditionally. -/
def Session.do_poll (_timeout : Nat) : Except GGPOError Unit :=
  .ok ()

/-- Default body of `Session::add_player`: returns `Ok(())`
unconditionally. -/
def Session.add_player (_player : Player) (_handle : PlayerHandle) : Except GGPOError Unit :=
  .ok ()

/-- Default body of `Session::add_local_input`: returns `Ok(())`
unconditionally. -/
def Session.add_local_input (_player : PlayerHandle) (_values : String) (_size : Nat) :
    Except GGPOError Unit :=
  .ok ()

/-- Default body of `Session::synchronize_input`: returns `Ok(())`
unconditionally, and returns no input data at all (the Rust success type
is the unit type). -/
def Session.synchronize_input (_values : String) (_size : Nat) (_disconnect_flags : Int) :
    Except GGPOError Unit :=
  .ok ()

/-- Default body of `Session::increment_frame`: returns `Ok(())`. -/
def Session.increment_frame : Except GGPOError Unit :=
  .ok ()

/-- Default body of `Session::chat`: returns `Ok(())`. -/
def Session.chat (_text : String) : Except GGPOError Unit :=
  .ok ()

/-- Default body of `Session::disconnect_player`: returns `Ok(())`
unconditionally. -/
def Session.disconnect_player (_handle : PlayerHandle) : Except GGPOError Unit :=
  .ok ()

/-- Default body of `Session::get_network_stats`: returns `Ok(())`. -/
def Session.get_network_stats (_stats : NetworkStats) (_handle : PlayerHandle) :
    Except GGPOError Unit :=
  .ok ()

/-- Default body of `Session::logv`: returns `Ok(())`. -/
def Session.logv (_fmt : String) : Except GGPOError Unit :=
  .ok ()

/-- Default body of `Session::set_frame_delay`: returns
`Err(GGPOError::Unsupported)` unconditionally. -/
def Session.set_frame_delay (_player : PlayerHandle) (_delay : Int) : Except GGPOError Unit :=
  .error .Unsupported

/-- Default body of `Session::set_disconnect_timeout`: returns
`Err(GGPOError::Unsupported)` unconditionally. -/
def Session.set_disconnect_timeout (_timeout : Nat) : Except GGPOError Unit :=
  .error .Unsupported

/-- Default body of `Session::set_disconnect_notify_start`: returns
`Err(GGPOError::Unsupported)` unconditionally. -/
def Session.set_disconnect_notify_start (_timeout : Nat) : Except GGPOError Unit :=
  .error .Unsupported

/-- Modelled from the spec: the wire message type `UdpMsg` lives in the
absent module `crate::network::udp_msg`.  The spec lists the variants
SyncRequest(nonce), SyncReply(nonce),
Input(frame, bits, ack_frame, sequence),
QualityReport(frame_advantage, ping, sequence), QualityReply(sequence),
KeepAlive(sequence), with fixed-width integer fields; frames are signed
integers with a distinguished null frame, and the input payload is a
byte vector that may be empty.  Widths chosen: nonce, sequence and ping
are u32; frame, ack_frame and frame_advantage are i32; bits is a byte
vector.  Bytes are embedded as `Nat` values below 256. -/
inductive UdpMsg where
  | SyncRequest (nonce : Nat)
  | SyncReply (nonce : Nat)
  | Input (frame : Int) (bits : List Nat) (ack_frame : Int) (sequence : Nat)
  | QualityReport (frame_advantage : Int) (ping : Nat) (sequence : Nat)
  | QualityReply (sequence : Nat)
  | KeepAlive (sequence : Nat)
deriving DecidableEq

/-- Modelled from the spec: the distinguished null frame value of the
signed frame index ("a distinguished null frame value denotes no frame
yet"). -/
def nullFrame : Int := -1

/-- The four little-endian bytes of a 32-bit unsigned integer, as in the
bincode fixed-width encoding used by `bincode::serialize`. -/
def u32ToLe (n : Nat) : List Nat :=
  [n % 256, n / 256 % 256, n / 65536 % 256, n / 16777216 % 256]

/-- The eight little-endian bytes of a 64-bit unsigned integer (bincode
encodes a vector length as a u64). -/
def u64ToLe (n : Nat) : List Nat :=
  [n % 256, n / 256 % 256, n / 65536 % 256, n / 16777216 % 256,
   n / 4294967296 % 256, n / 1099511627776 % 256,
   n / 281474976710656 % 256, n / 72057594037927936 % 256]

/-- The four little-endian bytes of a 32-bit signed integer in two's
complement. -/
def i32ToLe (i : Int) : List Nat :=
  u32ToLe (i % 4294967296).toNat

/-- Read a little-endian u32 off the front of a byte list. -/
def readU32 : List Nat → Option (Nat × List Nat)
  | b0 :: b1 :: b2 :: b3 :: rest =>
      some (b0 + 256 * b1 + 65536 * b2 + 16777216 * b3, rest)
  | _ => none

/-- Read a little-endian u64 off the front of a byte list. -/
def readU64 : List Nat → Option (Nat × List Nat)
  | b0 :: b1 :: b2 :: b3 :: b4 :: b5 :: b6 :: b7 :: rest =>
      some (b0 + 256 * b1 + 65536 * b2 + 16777216 * b3
        + 4294967296 * b4 + 1099511627776 * b5
        + 281474976710656 * b6 + 72057594037927936 * b7, rest)
  | _ => none

/-- Reinterpret a u32 value as an i32 in two's complement. -/
def i32OfU32 (n : Nat) : Int :=
  if n < 2147483648 then (n : Int) else (n : Int) - 4294967296

/-- Read a little-endian i32 off the front of a byte list. -/
def readI32 (bs : List Nat) : Option (Int × List Nat) :=
  match readU32 bs with
  | some (n, rest) => some (i32OfU32 n, rest)
  | none => none

/-- Read exactly `k` raw bytes off the front of a byte list. -/
def readBytes : Nat → List Nat → Option (List Nat × List Nat)
  | 0, bs => some ([], bs)
  | _ + 1, [] => none
  | k + 1, b :: bs =>
      match readBytes k bs with
      | some (xs, rest) => some (b :: xs, rest)
      | none => none

/-- Modelled from the spec: the encoding of a wire message produced by the
`bincode::serialize` call in `Udp::send_to` (the derive on the absent
`UdpMsg` type).  Bincode with its default options writes the enum variant
index as a u32, every integer field fixed-width little-endian, and a byte
vector as a u64 length followed by the raw bytes. -/
def serialize : UdpMsg → List Nat
  | .SyncRequest nonce => u32ToLe 0 ++ u32ToLe nonce
  | .SyncReply nonce => u32ToLe 1 ++ u32ToLe nonce
  | .Input frame bits ack_frame sequence =>
      u32ToLe 2 ++ (i32ToLe frame ++ (u64ToLe bits.length
        ++ (bits ++ (i32ToLe ack_frame ++ u32ToLe sequence))))
  | .QualityReport frame_advantage ping sequence =>
      u32ToLe 3 ++ (i32ToLe frame_advantage ++ (u32ToLe ping ++ u32ToLe sequence))
  | .QualityReply sequence => u32ToLe 4 ++ u32ToLe sequence
  | .KeepAlive sequence => u32ToLe 5 ++ u32ToLe sequence

/-- A bincode decoding failure, as carried by `UdpError::Bincode`. -/
structure BincodeError where
  message : String
deriving DecidableEq

/-- Modelled from the spec: the decoding of a wire message performed by the
`bincode::deserialize` call in `Udp::on_loop_poll`, inverse in shape to
`serialize`: variant tag as u32, then the variant fields. -/
def deserialize (bs : List Nat) : Except BincodeError UdpMsg :=
  match readU32 bs with
  | none => .error ⟨"unexpected end of input"⟩
  | some (tag, r1) =>
    if tag = 0 then
      match readU32 r1 with
      | some (nonce, _) => .ok (.SyncRequest nonce)
      | none => .error ⟨"unexpected end of input"⟩
    else if tag = 1 then
      match readU32 r1 with
      | some (nonce, _) => .ok (.SyncReply nonce)
      | none => .error ⟨"unexpected end of input"⟩
    else if tag = 2 then
      match readI32 r1 with
      | none => .error ⟨"unexpected end of input"⟩
      | some (frame, r2) =>
        match readU64 r2 with
        | none => .error ⟨"unexpected end of input"⟩
        | some (len, r3) =>
          match readBytes len r3 with
          | none => .error ⟨"unexpected end of input"⟩
          | some (bits, r4) =>
            match readI32 r4 with
            | none => .error ⟨"unexpected end of input"⟩
            | some (ack_frame, r5) =>
              match readU32 r5 with
              | some (sequence, _) => .ok (.Input frame bits ack_frame sequence)
              | none => .error ⟨"unexpected end of input"⟩
    else if tag = 3 then
      match readI32 r1 with
      | none => .error ⟨"unexpected end of input"⟩
      | some (frame_advantage, r2) =>
        match readU32 r2 with
        | none => .error ⟨"unexpected end of input"⟩
        | some (ping, r3) =>
          match readU32 r3 with
          | some (sequence, _) => .ok (.QualityReport frame_advantage ping sequence)
          | none => .error ⟨"unexpected end of input"⟩
    else if tag = 4 then
      match readU32 r1 with
      | some (sequence, _) => .ok (.QualityReply sequence)
      | none => .error ⟨"unexpected end of input"⟩
    else if tag = 5 then
      match readU32 r1 with
      | some (sequence, _) => .ok (.KeepAlive sequence)
      | none => .error ⟨"unexpected end of input"⟩
    else .error ⟨"invalid tag value"⟩

/-- Well-formedness of a wire message: every field fits the Rust machine
width it is declared at (u32 / i32 / u64 vector length / u8 bytes). -/
def UdpMsg.wf : UdpMsg → Bool
  | .SyncRequest nonce => decide (nonce < 4294967296)
  | .SyncReply nonce => decide (nonce < 4294967296)
  | .Input frame bits ack_frame sequence =>
      decide (-2147483648 ≤ frame) && decide (frame < 2147483648)
        && decide (bits.length < 18446744073709551616)
        && bits.all (fun b => decide (b < 256))
        && decide (-2147483648 ≤ ack_frame) && decide (ack_frame < 2147483648)
        && decide (sequence < 4294967296)
  | .QualityReport frame_advantage ping sequence =>
      decide (-2147483648 ≤ frame_advantage) && decide (frame_advantage < 2147483648)
        && decide (ping < 4294967296) && decide (sequence < 4294967296)
  | .QualityReply sequence => decide (sequence < 4294967296)
  | .KeepAlive sequence => decide (sequence < 4294967296)

/-- An I/O failure, standing in for `std::io::Error`; the sources only
ever construct one from a message (`ErrorKind::Other`) or propagate one
opaquely, so a message string suffices. -/
structure IoError where
  message : String
deriving DecidableEq

/-- The `UdpError` taxonomy of `src/network/udp.rs`. -/
inductive UdpError where
  | SocketUninit
  | CallbacksUninit
  | Io (source : IoError)
  | Bincode (source : BincodeError)
deriving DecidableEq

/-- A bound UDP socket, standing in for `async_net::UdpSocket`; the
embedding only needs its identity, the I/O it performs is passed in as
explicit outcome parameters. -/
structure UdpSocket where
  id : Nat
deriving DecidableEq

/-- A value of the `Callbacks` type parameter of `Udp`; the embedding only
needs its identity, and `on_loop_poll` reports the `on_msg` invocations it
performs as an explicit list. -/
structure UdpCallbacks where
  id : Nat
deriving DecidableEq

/-- The `Udp` struct of `src/network/udp.rs`: an optional socket and an
optional callbacks reference, both `None` until `init` runs. -/
structure Udp where
  socket : Option UdpSocket
  callbacks : Option UdpCallbacks
deriving DecidableEq

/-- `Udp::new` (also the `Default` impl): both fields `None`. -/
def Udp.new : Udp :=
  { socket := none, callbacks := none }

/-- The socket addresses `create_socket` attempts to bind, in order: the
loop `for port in p..(p + retries + 1)` runs over `usize` values, and each
one is narrowed by the `port as u16` cast inside `SocketAddr::new`, hence
the `% 65536`. -/
def create_socket_attempts (socket_address : SocketAddr) (retries : Nat) : List Nat :=
  (List.range (retries + 1)).map (fun i => (socket_address.port + i) % 65536)

/-- The error message `create_socket` builds after the loop exhausts every
attempt (`format!` with the retry count interpolated). -/
def create_socket_fail_msg (retries : Nat) : String :=
  "failed to bind socket after " ++ toString retries ++ " successive retries."

/-- The body of the `create_socket` loop: try each port in order, return
the first successful bind, fall through on every `Err`. -/
def create_socket_loop (bind : SocketAddr → Except IoError UdpSocket) (ip : IpAddr) :
    List Nat → Option UdpSocket
  | [] => none
  | p :: rest =>
    match bind ⟨ip, p⟩ with
    | .ok soc => some soc
    | .error _ => create_socket_loop bind ip rest

/-- `create_socket` of `src/network/udp.rs`: attempt to bind each address
in `create_socket_attempts`; return the first success, or an
`ErrorKind::Other` error after the loop.  The OS bind operation is passed
in as the `bind` outcome function. -/
def create_socket (bind : SocketAddr → Except IoError UdpSocket)
    (socket_address : SocketAddr) (retries : Nat) : Except IoError UdpSocket :=
  match create_socket_loop bind socket_address.ip (create_socket_attempts socket_address retries) with
  | some soc => .ok soc
  | none => .error ⟨create_socket_fail_msg retries⟩

/-- `Udp::init`: store the callbacks first, then bind via `create_socket`
with the loopback address `127.0.0.1` and `retries = 3`; a bind failure is
propagated (as `UdpError::Io` through the `From` impl) after the callbacks
were already stored. -/
def Udp.init (udp : Udp) (bind : SocketAddr → Except IoError UdpSocket)
    (port : Nat) (callbacks : UdpCallbacks) : Udp × Except UdpError Unit :=
  let udp1 : Udp := { udp with callbacks := some callbacks }
  match create_socket bind ⟨IpAddr.v4 127 0 0 1, port⟩ 3 with
  | .error e => (udp1, .error (.Io e))
  | .ok soc => ({ udp1 with socket := some soc }, .ok ())

/-- `Udp::send_to`: serialize the message, check the socket and transmit,
then check the socket again and query its peer address for the log line;
only then return `Ok(())`.  The socket's send and peer-address outcomes
are passed in explicitly.  The returned `Bool` records whether the
datagram was handed to the socket's send operation, so non-atomic error
returns are observable. -/
def Udp.send_to (udp : Udp) (msg : UdpMsg) (_destination : List SocketAddr)
    (sendResult : Except IoError Nat) (peerAddrResult : Except IoError SocketAddr) :
    Bool × Except UdpError Unit :=
  let _serialized := serialize msg
  match udp.socket with
  | none => (false, .error .SocketUninit)
  | some _ =>
    match sendResult with
    | .error e => (false, .error (.Io e))
    | .ok _resp =>
      match udp.socket with
      | none => (true, .error .SocketUninit)
      | some _ =>
        match peerAddrResult with
        | .error e => (true, .error (.Io e))
        | .ok _peer_addr => (true, .ok ())

/-- `Udp::on_loop_poll`: check the socket, receive a datagram, decode it
with `bincode::deserialize`, check the callbacks, hand the message to
`on_msg`, return `Ok(true)`.  Every failing step returns early through
`?` or `ok_or`.  The receive outcome (length, sender address, buffer
contents) is passed in explicitly, and the `on_msg` invocations performed
are returned as a list. -/
def Udp.on_loop_poll (udp : Udp) (_cookie : Int)
    (recvResult : Except IoError (Nat × SocketAddr × List Nat)) :
    List (SocketAddr × UdpMsg × Nat) × Except UdpError Bool :=
  match udp.socket with
  | none => ([], .error .SocketUninit)
  | some _ =>
    match recvResult with
    | .error e => ([], .error (.Io e))
    | .ok (len, recv_address, buf) =>
      match deserialize buf with
      | .error e => ([], .error (.Bincode e))
      | .ok msg =>
        match udp.callbacks with
        | none => ([], .error .CallbacksUninit)
        | some _ => ([(recv_address, msg, len)], .ok true)

/-- Reading a u32 back off its little-endian bytes recovers the value and
leaves the remaining bytes untouched. -/
theorem readU32_u32ToLe (n : Nat) (h : n < 4294967296) (rest : List Nat) :
    readU32 (u32ToLe n ++ rest) = some (n, rest) := by
  simp only [u32ToLe, readU32, List.cons_append, List.nil_append, Option.some.injEq,
    Prod.mk.injEq, and_true]
  omega

/-- Reading a u64 back off its little-endian bytes recovers the value. -/
theorem readU64_u64ToLe (n : Nat) (h : n < 18446744073709551616) (rest : List Nat) :
    readU64 (u64ToLe n ++ rest) = some (n, rest) := by
  simp only [u64ToLe, readU64, List.cons_append, List.nil_append, Option.some.injEq,
    Prod.mk.injEq, and_true]
  omega

/-- Reading an i32 back off its two's-complement little-endian bytes
recovers the value for every value in the i32 range. -/
theorem readI32_i32ToLe (i : Int) (h1 : -2147483648 ≤ i) (h2 : i < 2147483648)
    (rest : List Nat) : readI32 (i32ToLe i ++ rest) = some (i, rest) := by
  have hlt : (i % 4294967296).toNat < 4294967296 := by omega
  rw [readI32, i32ToLe, readU32_u32ToLe _ hlt rest]
  simp only [i32OfU32, Option.some.injEq, Prod.mk.injEq, and_true]
  split <;> omega

/-- Reading back exactly the bytes that were written leaves the rest. -/
theorem readBytes_append (xs rest : List Nat) :
    readBytes xs.length (xs ++ rest) = some (xs, rest) := by
  induction xs with
  | nil => simp [readBytes]
  | cons b bs ih => simp [readBytes, ih]

/-- Decoding the encoding of a well-formed message yields the message
back, even with arbitrary trailing bytes left in the buffer. -/
theorem deserialize_serialize_of_wf (m : UdpMsg) (h : m.wf = true) (rest : List Nat) :
    deserialize (serialize m ++ rest) = .ok m := by
  cases m with
  | SyncRequest nonce =>
    simp only [UdpMsg.wf, decide_eq_true_eq] at h
    simp only [serialize, deserialize, List.append_assoc,
      readU32_u32ToLe 0 (by norm_num), readU32_u32ToLe nonce h]
    simp
  | SyncReply nonce =>
    simp only [UdpMsg.wf, decide_eq_true_eq] at h
    simp only [serialize, deserialize, List.append_assoc,
      readU32_u32ToLe 1 (by norm_num), readU32_u32ToLe nonce h]
    simp
  | Input frame bits ack_frame sequence =>
    simp only [UdpMsg.wf, Bool.and_eq_true, decide_eq_true_eq] at h
    obtain ⟨⟨⟨⟨⟨⟨hf1, hf2⟩, hlen⟩, _hbytes⟩, ha1⟩, ha2⟩, hseq⟩ := h
    simp only [serialize, deserialize, List.append_assoc,
      readU32_u32ToLe 2 (by norm_num),
      readI32_i32ToLe frame hf1 hf2,
      readU64_u64ToLe bits.length hlen,
      readBytes_append,
      readI32_i32ToLe ack_frame ha1 ha2,
      readU32_u32ToLe sequence hseq]
    simp
  | QualityReport frame_advantage ping sequence =>
    simp only [UdpMsg.wf, Bool.and_eq_true, decide_eq_true_eq] at h
    obtain ⟨⟨⟨hf1, hf2⟩, hping⟩, hseq⟩ := h
    simp only [serialize, deserialize, List.append_assoc,
      readU32_u32ToLe 3 (by norm_num),
      readI32_i32ToLe frame_advantage hf1 hf2,
      readU32_u32ToLe ping hping,
      readU32_u32ToLe sequence hseq]
    simp
  | QualityReply sequence =>
    simp only [UdpMsg.wf, decide_eq_true_eq] at h
    simp only [serialize, deserialize, List.append_assoc,
      readU32_u32ToLe 4 (by norm_num), readU32_u32ToLe sequence h]
    simp
  | KeepAlive sequence =>
    simp only [UdpMsg.wf, decide_eq_true_eq] at h
    simp only [serialize, deserialize, List.append_assoc,
      readU32_u32ToLe 5 (by norm_num), readU32_u32ToLe sequence h]
    simp

/-- C1.  The claim says `add_local_input` fails with `PredictionThreshold`
exactly when the local frame has run more than the prediction window past
the lowest remote confirmed frame, and otherwise appends the input.  The
default body in `src/ggpo.rs` keeps no frame bookkeeping at all and
returns `Ok(())` unconditionally, so even a call made arbitrarily far past
any prediction window succeeds; here the code is evaluated at such a
call. -/
theorem c1_add_local_input_stub_ok :
    Session.add_local_input 1 "" 0 = Except.ok () := rfl

/-- C2.  The claim says `synchronize_input` fails with `NotSynchronized`
while a required endpoint is still syncing and otherwise returns per-player
inputs.  The default body in `src/ggpo.rs` returns `Ok(())`
unconditionally — its success type is unit, so it cannot return inputs,
and it never consults any endpoint state; here the code is evaluated at a
call that the claim requires to fail. -/
theorem c2_synchronize_input_stub_ok :
    Session.synchronize_input "" 0 0 = Except.ok () := rfl

/-- C3.  The claim says handle-taking operations reject out-of-domain
handles, spectator overflow and malformed argument combinations.  The
default bodies in `src/ggpo.rs` return `Ok(())` unconditionally: an
`add_player` of a spectator at an arbitrary out-of-domain handle, a
`disconnect_player` of that handle, and an `add_local_input` whose `size`
contradicts its `values` all succeed. -/
theorem c3_validation_stub_ok :
    Session.add_player (Player.Spectator ⟨IpAddr.v4 127 0 0 1, 7001⟩) 999 = Except.ok ()
      ∧ Session.disconnect_player 999 = Except.ok ()
      ∧ Session.add_local_input 999 "xy" 0 = Except.ok () :=
  ⟨rfl, rfl, rfl⟩

/-- C4, counterexample.  The claim says `set_frame_delay` never fails with
`Unsupported`; the default body in `src/ggpo.rs` returns exactly
`Err(GGPOError::Unsupported)` at every input, exhibited here at player
handle 1, delay 2. -/
theorem c4_set_frame_delay_unsupported_cex :
    Session.set_frame_delay 1 2 = Except.error GGPOError.Unsupported := rfl

/-- C4, amended.  The three configuration setters are declared on the
`Session` trait, but each default body fails with `Unsupported` for every
player handle and every delay or timeout value. -/
theorem c4_setters_always_unsupported :
    (∀ (p : PlayerHandle) (d : Int),
        Session.set_frame_delay p d = Except.error GGPOError.Unsupported)
      ∧ (∀ t : Nat, Session.set_disconnect_timeout t = Except.error GGPOError.Unsupported)
      ∧ (∀ t : Nat,
        Session.set_disconnect_notify_start t = Except.error GGPOError.Unsupported) :=
  ⟨fun _ _ => rfl, fun _ => rfl, fun _ => rfl⟩

/-- C6.  The wire codec round-trips: decoding the `bincode` encoding of
any well-formed wire message (every field within its machine width,
including the boundary cases of a null frame and a zero-length input
payload) yields the original message. -/
theorem c6_wire_roundtrip (m : UdpMsg) (h : m.wf = true) :
    deserialize (serialize m) = Except.ok m := by
  have h2 := deserialize_serialize_of_wf m h []
  simpa using h2

/-- C6, witness: the boundary message with frame and ack both the null
frame and a zero-length input payload is well-formed and round-trips. -/
theorem c6_wire_roundtrip_witness :
    (UdpMsg.Input nullFrame [] nullFrame 0).wf = true
      ∧ deserialize (serialize (UdpMsg.Input nullFrame [] nullFrame 0))
        = Except.ok (UdpMsg.Input nullFrame [] nullFrame 0) :=
  ⟨by decide, c6_wire_roundtrip (UdpMsg.Input nullFrame [] nullFrame 0) (by decide)⟩

/-- C7.  Every default trait method of `Session` other than the three
configuration setters — `do_poll`, `add_player`, `add_local_input`,
`synchronize_input`, `increment_frame`, `chat`, `disconnect_player`,
`get_network_stats` — returns `Ok(())` unconditionally, for every input
regardless of validity. -/
theorem c7_default_methods_always_ok :
    (∀ t : Nat, Session.do_poll t = Except.ok ())
      ∧ (∀ (p : Player) (h : PlayerHandle), Session.add_player p h = Except.ok ())
      ∧ (∀ (p : PlayerHandle) (v : String) (s : Nat),
        Session.add_local_input p v s = Except.ok ())
      ∧ (∀ (v : String) (s : Nat) (d : Int),
        Session.synchronize_input v s d = Except.ok ())
      ∧ Session.increment_frame = Except.ok ()
      ∧ (∀ t : String, Session.chat t = Except.ok ())
      ∧ (∀ h : PlayerHandle, Session.disconnect_player h = Except.ok ())
      ∧ (∀ (st : NetworkStats) (h : PlayerHandle),
        Session.get_network_stats st h = Except.ok ()) :=
  ⟨fun _ => rfl, fun _ _ => rfl, fun _ _ _ => rfl, fun _ _ _ => rfl, rfl,
    fun _ => rfl, fun _ => rfl, fun _ _ => rfl⟩

/-- C5, counterexample.  The claim says `on_loop_poll` drops an undecodable
datagram and does not propagate a decode failure to its caller.  On a fully
initialized `Udp` (socket and callbacks both present) whose receive yields
an empty payload — which `bincode::deserialize` rejects — `on_loop_poll`
returns the decode failure to the caller as a `Bincode` error. -/
theorem c5_decode_failure_propagates_cex :
    (Udp.on_loop_poll ⟨some ⟨0⟩, some ⟨0⟩⟩ 0
        (Except.ok (0, ⟨IpAddr.v4 127 0 0 1, 9000⟩, []))).2
      = Except.error (UdpError.Bincode ⟨"unexpected end of input"⟩) := rfl

/-- C5, amended.  A datagram whose payload fails to decode is not silently
dropped: `on_loop_poll` propagates the decode failure to its caller as a
`Bincode` error (via the `?` on `bincode::deserialize`), without invoking
the `on_msg` callback; the `Udp` state itself is untouched, since
`on_loop_poll` takes `&self`. -/
theorem c5_decode_failure_returns_bincode_error (udp : Udp) (s : UdpSocket) (cookie : Int)
    (len : Nat) (addr : SocketAddr) (buf : List Nat) (e : BincodeError)
    (hs : udp.socket = some s) (hd : deserialize buf = .error e) :
    udp.on_loop_poll cookie (.ok (len, addr, buf)) = ([], .error (.Bincode e)) := by
  simp [Udp.on_loop_poll, hs, hd]

/-- C5, witness: the amended statement at the concrete initialized `Udp`
and the empty payload. -/
theorem c5_decode_failure_witness :
    Udp.on_loop_poll ⟨some ⟨0⟩, some ⟨0⟩⟩ 0
        (Except.ok (0, ⟨IpAddr.v4 127 0 0 1, 9000⟩, []))
      = ([], Except.error (UdpError.Bincode ⟨"unexpected end of input"⟩)) :=
  c5_decode_failure_returns_bincode_error ⟨some ⟨0⟩, some ⟨0⟩⟩ ⟨0⟩ 0 0
    ⟨IpAddr.v4 127 0 0 1, 9000⟩ [] ⟨"unexpected end of input"⟩ rfl rfl

/-- C8, counterexample.  The claim says that when the callbacks field is
`None`, `on_loop_poll` reports `CallbacksUninit`.  But the callbacks check
sits after the receive and decode steps: with callbacks `None` and an
undecodable received payload, `on_loop_poll` reports a `Bincode` error,
not `CallbacksUninit`. -/
theorem c8_callbacks_uninit_cex :
    (Udp.on_loop_poll ⟨some ⟨0⟩, none⟩ 0
        (Except.ok (0, ⟨IpAddr.v4 127 0 0 1, 9000⟩, []))).2
      = Except.error (UdpError.Bincode ⟨"unexpected end of input"⟩)
    ∧ (Udp.on_loop_poll ⟨some ⟨0⟩, none⟩ 0
        (Except.ok (0, ⟨IpAddr.v4 127 0 0 1, 9000⟩, []))).2
      ≠ Except.error UdpError.CallbacksUninit :=
  ⟨rfl, fun h => UdpError.noConfusion (Except.error.inj h)⟩

/-- C8, amended.  When the socket field is `None`, `send_to` fails with
`SocketUninit` without transmitting, for every message, destination list
and I/O outcome, and `on_loop_poll` fails with `SocketUninit` without
invoking `on_msg`.  When the callbacks field is `None`, `on_loop_poll`
never invokes a callback, and it reports `CallbacksUninit` provided the
socket is initialized, the receive succeeds, and the payload decodes;
failures of those earlier steps are reported instead. -/
theorem c8_uninit_fields_error :
    (∀ (udp : Udp) (msg : UdpMsg) (dest : List SocketAddr) (sr : Except IoError Nat)
        (pr : Except IoError SocketAddr), udp.socket = none →
        udp.send_to msg dest sr pr = (false, .error .SocketUninit))
    ∧ (∀ (udp : Udp) (cookie : Int) (rr : Except IoError (Nat × SocketAddr × List Nat)),
        udp.socket = none → udp.on_loop_poll cookie rr = ([], .error .SocketUninit))
    ∧ (∀ (udp : Udp) (cookie : Int) (rr : Except IoError (Nat × SocketAddr × List Nat)),
        udp.callbacks = none → (udp.on_loop_poll cookie rr).1 = [])
    ∧ (∀ (udp : Udp) (s : UdpSocket) (cookie : Int) (len : Nat) (addr : SocketAddr)
        (buf : List Nat) (m : UdpMsg), udp.callbacks = none → udp.socket = some s →
        deserialize buf = .ok m →
        udp.on_loop_poll cookie (.ok (len, addr, buf)) = ([], .error .CallbacksUninit)) := by
  refine ⟨?_, ?_, ?_, ?_⟩
  · intro udp msg dest sr pr h
    simp [Udp.send_to, h]
  · intro udp cookie rr h
    simp [Udp.on_loop_poll, h]
  · intro udp cookie rr h
    cases hsock : udp.socket with
    | none => simp [Udp.on_loop_poll, hsock]
    | some s =>
      cases rr with
      | error e => simp [Udp.on_loop_poll, hsock]
      | ok t =>
        obtain ⟨len, addr, buf⟩ := t
        cases hd : deserialize buf with
        | error e => simp [Udp.on_loop_poll, hsock, hd]
        | ok m => simp [Udp.on_loop_poll, hsock, hd, h]
  · intro udp s cookie len addr buf m hcb hsock hd
    simp [Udp.on_loop_poll, hsock, hd, hcb]

/-- C8, witness: the first amended conjunct at the freshly constructed
`Udp` (both fields `None`) and a keep-alive message. -/
theorem c8_uninit_fields_witness :
    Udp.send_to Udp.new (UdpMsg.KeepAlive 0) [] (Except.ok 0)
        (Except.error ⟨"not connected"⟩)
      = (false, Except.error UdpError.SocketUninit) :=
  c8_uninit_fields_error.1 Udp.new (UdpMsg.KeepAlive 0) [] (Except.ok 0)
    (Except.error ⟨"not connected"⟩) rfl

/-- C9.  `send_to` is not atomic on error: the peer-address query sits
after the transmit, so when the socket is initialized, the transmit
succeeds and the peer-address query fails, `send_to` returns an `Io`
error even though the datagram was already handed to the socket (the
transmitted flag of the embedding is `true`). -/
theorem c9_send_to_error_after_transmit (udp : Udp) (s : UdpSocket) (msg : UdpMsg)
    (dest : List SocketAddr) (n : Nat) (e : IoError) (hs : udp.socket = some s) :
    udp.send_to msg dest (.ok n) (.error e) = (true, .error (.Io e)) := by
  simp [Udp.send_to, hs]

/-- C9, witness: a bound-but-unconnected socket, whose peer-address query
fails, on a keep-alive message. -/
theorem c9_send_to_error_after_transmit_witness :
    Udp.send_to ⟨some ⟨0⟩, none⟩ (UdpMsg.KeepAlive 0) [] (Except.ok 12)
        (Except.error ⟨"not connected"⟩)
      = (true, Except.error (UdpError.Io ⟨"not connected"⟩)) :=
  c9_send_to_error_after_transmit ⟨some ⟨0⟩, none⟩ ⟨0⟩ (UdpMsg.KeepAlive 0) [] 12
    ⟨"not connected"⟩ rfl

/-- When every port in the list fails to bind, the retry loop falls
through to the end. -/
theorem create_socket_loop_all_fail (bind : SocketAddr → Except IoError UdpSocket)
    (ip : IpAddr) (ps : List Nat) (h : ∀ q ∈ ps, ∃ e, bind ⟨ip, q⟩ = .error e) :
    create_socket_loop bind ip ps = none := by
  induction ps with
  | nil => rfl
  | cons p rest ih =>
    obtain ⟨e, he⟩ := h p (List.mem_cons_self p rest)
    simp only [create_socket_loop, he]
    exact ih fun q hq => h q (List.mem_cons_of_mem p hq)

/-- When the retry loop over an ascending port range returns a socket, it
came from the first port whose bind succeeded: some index bound the
socket, and every earlier index failed. -/
theorem create_socket_loop_first_success (bind : SocketAddr → Except IoError UdpSocket)
    (ip : IpAddr) (f : Nat → Nat) :
    ∀ (n s : Nat) (soc : UdpSocket),
      create_socket_loop bind ip ((List.range' s n).map f) = some soc →
      ∃ i, s ≤ i ∧ i < s + n ∧ bind ⟨ip, f i⟩ = .ok soc
        ∧ ∀ j, s ≤ j → j < i → ∃ e, bind ⟨ip, f j⟩ = .error e := by
  intro n
  induction n with
  | zero =>
    intro s soc h
    simp [create_socket_loop] at h
  | succ m ih =>
    intro s soc h
    rw [List.range'_succ s m 1, List.map_cons] at h
    cases hb : bind ⟨ip, f s⟩ with
    | ok soc2 =>
      simp only [create_socket_loop, hb, Option.some.injEq] at h
      subst h
      exact ⟨s, Nat.le_refl s, by omega, hb, fun j h1 h2 => absurd h2 (by omega)⟩
    | error e =>
      simp only [create_socket_loop, hb] at h
      obtain ⟨i, hi1, hi2, hi3, hi4⟩ := ih (s + 1) soc h
      refine ⟨i, by omega, by omega, hi3, ?_⟩
      intro j hj1 hj2
      by_cases hj : j = s
      · exact ⟨e, hj ▸ hb⟩
      · exact hi4 j (by omega) hj2

/-- C10, counterexample.  The claim says `create_socket` attempts the
ports port, port + 1, ..., port + retries.  But the loop variable is a
`usize` narrowed by a `port as u16` cast at each attempt, so from port
65535 with retries 3 the attempted ports wrap to 65535, 0, 1, 2: under a
bind oracle that fails on every port except 0, `create_socket` still
succeeds — with a socket bound on port 0, which is not among the claimed
ports. -/
theorem c10_port_cast_wraps_cex :
    create_socket
        (fun a => if a.port = 0 then Except.ok ⟨0⟩ else Except.error ⟨"in use"⟩)
        ⟨IpAddr.v4 127 0 0 1, 65535⟩ 3
      = Except.ok ⟨0⟩
    ∧ create_socket_attempts ⟨IpAddr.v4 127 0 0 1, 65535⟩ 3 = [65535, 0, 1, 2] := by
  constructor <;> rfl

/-- C10, amended.  `create_socket` makes exactly retries + 1 bind
attempts, at the ports (port + i) mod 65536 for i = 0, ..., retries in
ascending order of i (the `port as u16` cast wraps past 65535); it
returns the first socket that binds successfully, and returns an `Io`
error only after every attempt has failed.  `Udp::init` on a fresh `Udp`
obtains its socket from `create_socket` at the loopback address
`127.0.0.1` with retries = 3. -/
theorem c10_create_socket_spec (bind : SocketAddr → Except IoError UdpSocket)
    (sa : SocketAddr) (retries : Nat) :
    (create_socket_attempts sa retries).length = retries + 1
    ∧ ((∀ q ∈ create_socket_attempts sa retries, ∃ e, bind ⟨sa.ip, q⟩ = .error e) →
        create_socket bind sa retries = .error ⟨create_socket_fail_msg retries⟩)
    ∧ (∀ soc, create_socket bind sa retries = .ok soc →
        ∃ i, i ≤ retries ∧ bind ⟨sa.ip, (sa.port + i) % 65536⟩ = .ok soc
          ∧ ∀ j < i, ∃ e, bind ⟨sa.ip, (sa.port + j) % 65536⟩ = .error e)
    ∧ (∀ (port : Nat) (cb : UdpCallbacks) (soc : UdpSocket),
        (Udp.init Udp.new bind port cb).1.socket = some soc →
        create_socket bind ⟨IpAddr.v4 127 0 0 1, port⟩ 3 = .ok soc) := by
  refine ⟨by simp [create_socket_attempts], ?_, ?_, ?_⟩
  · intro h
    rw [create_socket, create_socket_loop_all_fail bind sa.ip _ h]
  · intro soc h
    rw [create_socket] at h
    cases hl : create_socket_loop bind sa.ip (create_socket_attempts sa retries) with
    | none => rw [hl] at h; exact absurd h (by simp)
    | some soc2 =>
      rw [hl] at h
      obtain rfl : soc2 = soc := by injection h
      rw [create_socket_attempts, List.range_eq_range'] at hl
      obtain ⟨i, hi1, hi2, hi3, hi4⟩ :=
        create_socket_loop_first_success bind sa.ip _ (retries + 1) 0 soc2 hl
      exact ⟨i, by omega, hi3, fun j hj => hi4 j (Nat.zero_le j) hj⟩
  · intro port cb soc h
    rw [Udp.init] at h
    cases hc : create_socket bind ⟨IpAddr.v4 127 0 0 1, port⟩ 3 with
    | error e => rw [hc] at h; exact absurd h (by simp [Udp.new])
    | ok soc2 =>
      rw [hc] at h
      simp only [Udp.new] at h
      obtain rfl : soc2 = soc := by
        injection h
      rfl

/-- C10, witness: under a bind oracle that always fails, `create_socket`
from port 7000 with retries 3 returns the four-attempt failure error. -/
theorem c10_create_socket_witness :
    create_socket (fun _ => Except.error ⟨"address in use"⟩)
        ⟨IpAddr.v4 127 0 0 1, 7000⟩ 3
      = Except.error ⟨create_socket_fail_msg 3⟩ :=
  (c10_create_socket_spec (fun _ => Except.error ⟨"address in use"⟩)
      ⟨IpAddr.v4 127 0 0 1, 7000⟩ 3).2.1
    (fun _q _ => ⟨⟨"address in use"⟩, rfl⟩)

end GgpoRs
